import Mathlib

/-!
# The k6 load-test script `src/utils/test.js`

A shallow embedding of the load-test harness (metrics, `getAuthToken`,
`testEndpoint`, the default iteration function, `options`) together with the
properties of it that the specification states.

The script runs on top of the k6 runtime.  The k6 primitives it calls
(`http.*`, `check`, `group`, `sleep`, the metric objects) and the JavaScript
operators it uses (truthiness, template strings, property access) are modelled
here with the semantics k6 and ECMAScript give them.  JavaScript built-ins whose
result the script only passes along (`toUpperCase`, `JSON.stringify`, string
conversion of non-string values) are fields of `Runtime`.
-/

namespace LoadTest

/-! ## JavaScript values -/

/-- JavaScript values as the script meets them: the result of `Response.json()`,
the token, the request payload.  JSON numbers are modelled by integers: the
script only tests numbers for being zero or positive. -/
inductive JsVal where
  | undefined
  | null
  | bool (b : Bool)
  | num (n : Int)
  | str (s : String)
  | arr (xs : List JsVal)
  | obj (kvs : List (String × JsVal))

/-- Faults a JavaScript evaluation can raise in this script. -/
inductive Fault where
  /-- Thrown by `Response.json()` on a body that k6 cannot parse as JSON -/
  | jsonError
  /-- Thrown by property access on `null` or `undefined` -/
  | typeError
  /-- Thrown by the evaluation of an identifier that is bound nowhere -/
  | referenceError (name : String)
  deriving DecidableEq, Repr

/-- JavaScript truthiness (`if (v)`, `v ? a : b`). -/
def truthy : JsVal → Bool
  | .undefined => false
  | .null => false
  | .bool b => b
  | .num n => n != 0
  | .str s => s != ""
  | .arr _ => true
  | .obj _ => true

/-- Own-property lookup in a parsed JSON object. -/
def lookupKey (key : String) : List (String × JsVal) → Option JsVal
  | [] => none
  | (k, v) :: rest => if k = key then some v else lookupKey key rest

/-- Number of UTF-16 code units of a string (`s.length` in JavaScript). -/
def utf16Len (s : String) : Nat :=
  (s.data.map (fun c => if c.toNat < 65536 then 1 else 2)).sum

/-- Property access `v.key` on a value that came out of JSON, for a key that is neither
an index nor a name defined on a prototype (the script reads `auth_key`,
`length` and `answer`): a fault on `null` and `undefined`, the stored value on
an object, `length` on arrays and strings, `undefined` otherwise. -/
def getProp (v : JsVal) (key : String) : Except Fault JsVal :=
  match v with
  | .undefined => .error .typeError
  | .null => .error .typeError
  | .obj kvs =>
    match lookupKey key kvs with
    | some x => .ok x
    | none => .ok .undefined
  | .arr xs => if key = "length" then .ok (.num xs.length) else .ok .undefined
  | .str s => if key = "length" then .ok (.num (utf16Len s)) else .ok .undefined
  | .bool _ => .ok .undefined
  | .num _ => .ok .undefined

/-- The test `Array.isArray(v)`. -/
def isArray : JsVal → Bool
  | .arr _ => true
  | _ => false

/-- The test `v !== null`. -/
def notNull : JsVal → Bool
  | .null => false
  | _ => true

/-- The call `v.hasOwnProperty(key)` on a value that came out of JSON and does not
redefine the method, for a key that is not an index (the script asks for
`answer`). -/
def hasOwnProperty (v : JsVal) (key : String) : Except Fault Bool :=
  match v with
  | .undefined => .error .typeError
  | .null => .error .typeError
  | .obj kvs => .ok (lookupKey key kvs).isSome
  | .arr _ => .ok (key == "length")
  | .str _ => .ok (key == "length")
  | .bool _ => .ok false
  | .num _ => .ok false

/-- JavaScript built-ins whose results the script passes along unchanged. -/
structure Runtime where
  /-- The method `String.prototype.toUpperCase` -/
  toUpperCase : String → String
  /-- The function `JSON.stringify` -/
  stringify : JsVal → String
  /-- String conversion of a value that is not a string -/
  display : JsVal → String
  /-- The comparison `v > 0` for a value that is not a number -/
  gtZero : JsVal → Bool

/-- Conversion inside a template string: a string is inserted as it is. -/
def templateStr (rt : Runtime) : JsVal → String
  | .str s => s
  | v => rt.display v

/-- The comparison `v > 0`. -/
def greaterThanZero (rt : Runtime) : JsVal → Bool
  | .num n => decide (0 < n)
  | v => rt.gtZero v

/-! ## HTTP -/

/-- The HTTP verbs of the k6 functions `http.get`, `http.post`, `http.put`, `http.del`. -/
inductive Verb where
  | GET | POST | PUT | DELETE
  deriving DecidableEq, Repr

/-- One HTTP request as handed to k6: verb, URL, body argument, headers. -/
structure Request where
  verb : Verb
  url : String
  body : Option String
  headers : List (String × String)
  deriving DecidableEq, Repr

/-- A k6 response object.  `json` is what the method `json()` gives: `none` when k6
cannot parse the body, in which case the call throws.  A transport failure
(connection refused, timeout) is delivered by k6 as a response with status `0`
and a `null` body; `http.*` itself does not throw. -/
structure Response where
  status : Nat
  body : Option String
  json : Option JsVal

/-- The call `r.json()`. -/
def Response.jsonCall (r : Response) : Except Fault JsVal :=
  match r.json with
  | some v => .ok v
  | none => .error .jsonError

/-- The target API and the clock, as seen by one simulated user: the response to a
request and the milliseconds measured around it, both free to depend on all the
requests sent before. -/
structure World where
  respond : List Request → Request → Response
  elapsed : List Request → Request → Int

/-! ## Metrics sink and script state -/

/-- A pause requested through `sleep`. -/
inductive Pause where
  | fixed (seconds : Nat)
  /-- A pause of `Math.random() * 2 + 1` seconds -/
  | randomOneToThree
  deriving DecidableEq, Repr

/-- Everything the script writes to: the four custom metrics, the results of
`check`, the console, the requests handed to k6, the groups entered and the pauses. -/
structure State where
  /-- Metric `Counter('endpoint_errors')` -/
  endpointErrors : Nat
  /-- Metric `Counter('endpoint_requests')` -/
  endpointRequests : Nat
  /-- Metric `Rate('success_rate')`: the booleans added -/
  successRate : List Bool
  /-- Metric `Trend('response_times')`: the values added -/
  responseTimes : List Int
  /-- The outcome of every named check -/
  checks : List (String × Bool)
  /-- The lines written by `console.log` -/
  console : List String
  /-- The HTTP requests issued, oldest first -/
  sent : List Request
  /-- The names of the groups entered, oldest first -/
  groups : List String
  /-- The pauses taken, oldest first -/
  pauses : List Pause

/-- The state at the start of a run. -/
def State.init : State :=
  { endpointErrors := 0, endpointRequests := 0, successRate := [], responseTimes := [],
    checks := [], console := [], sent := [], groups := [], pauses := [] }

/-- A step of the script: it leaves a state behind whether it returns or throws. -/
def Script (α : Type) : Type := State → Except Fault α × State

/-- A step that returns `a` and changes nothing. -/
def Script.pure {α : Type} (a : α) : Script α := fun s => (.ok a, s)

/-- Sequencing: a fault in the first step skips the second. -/
def Script.bind {α β : Type} (m : Script α) (f : α → Script β) : Script β := fun s =>
  match m s with
  | (.ok a, s1) => f a s1
  | (.error e, s1) => (.error e, s1)

instance : Monad Script where
  pure := Script.pure
  bind := Script.bind

/-- Raise a fault. -/
def raise {α : Type} (e : Fault) : Script α := fun s => (.error e, s)

/-- Run a JavaScript expression that may throw. -/
def liftExcept {α : Type} (x : Except Fault α) : Script α := fun s => (x, s)

/-- Change the state. -/
def modifyState (f : State → State) : Script Unit := fun s => (.ok (), f s)

/-- Send a request through k6: the world answers, the request is recorded. -/
def httpSend (w : World) (req : Request) : Script (Response × Int) := fun s =>
  (.ok (w.respond s.sent req, w.elapsed s.sent req), { s with sent := s.sent ++ [req] })

/-- The k6 function `check(val, sets)`: every named function is applied to `val` in
order and its outcome recorded; the result is `true` when all of them hold.  A
function that throws counts as failed and its exception is thrown again at once. -/
def check (val : Response) : List (String × (Response → Except Fault Bool)) → Script Bool
  | [] => Script.pure true
  | (name, fn) :: rest => fun s =>
    match fn val with
    | .ok b =>
      match check val rest { s with checks := s.checks ++ [(name, b)] } with
      | (.ok succ, s1) => (.ok (b && succ), s1)
      | (.error e, s1) => (.error e, s1)
    | .error e => (.error e, { s with checks := s.checks ++ [(name, false)] })

/-- The k6 function `group(name, fn)`: runs `fn` inside the named group. -/
def group {α : Type} (name : String) (fn : Script α) : Script α := fun s =>
  fn { s with groups := s.groups ++ [name] }

/-- The k6 function `sleep`. -/
def sleep (p : Pause) : Script Unit :=
  modifyState (fun s => { s with pauses := s.pauses ++ [p] })

/-! ## The script -/

/-- The constant `baseUrl`. -/
def baseUrl : String := "http://192.168.81.10:8081/api"

/-- The login request of `getAuthToken` (lines 34-45). -/
def loginRequest (rt : Runtime) : Request :=
  let payload := rt.stringify (.obj [("login", .str "Pavel2"), ("password", .str "123123")])
  let params := [("Content-Type", "application/json")]
  { verb := .POST, url := baseUrl ++ "/user/login", body := some payload, headers := params }

/-- The function `getAuthToken` (lines 33-52): one POST to the login path; on status
200 the field `auth_key` of the parsed body, otherwise `null`. -/
def getAuthToken (rt : Runtime) (w : World) : Script JsVal := do
  let (loginRes, _) ← httpSend w (loginRequest rt)
  if loginRes.status = 200 then
    let parsed ← liftExcept loginRes.jsonCall
    liftExcept (getProp parsed "auth_key")
  else
    pure .null

/-- The headers `params.headers` built by `testEndpoint` (lines 59-68). -/
def buildHeaders (rt : Runtime) (token : JsVal) : List (String × String) :=
  let headers := [("Content-Type", "application/json")]
  if truthy token then
    headers ++ [("Authorization", "Bearer " ++ templateStr rt token)]
  else
    headers

/-- The request chosen by the `switch` of `testEndpoint` (lines 74-89). -/
def buildRequest (rt : Runtime) (token : JsVal) (endpoint : String) (method : String)
    (data : JsVal) : Request :=
  let url := baseUrl ++ endpoint
  let headers := buildHeaders rt token
  match rt.toUpperCase method with
  | "GET" => { verb := .GET, url := url, body := none, headers := headers }
  | "POST" =>
    { verb := .POST, url := url,
      body := some (if truthy data then rt.stringify data else ""), headers := headers }
  | "PUT" =>
    { verb := .PUT, url := url,
      body := some (if truthy data then rt.stringify data else ""), headers := headers }
  | "DELETE" => { verb := .DELETE, url := url, body := none, headers := headers }
  | _ => { verb := .GET, url := url, body := none, headers := headers }

/-- The text of `response.body` inside a template string. -/
def bodyText (r : Response) : String :=
  match r.body with
  | some b => b
  | none => "null"

/-- The line `testEndpoint` writes to the console for an unsuccessful request (line 105). -/
def errorLine (url : String) (r : Response) : String :=
  "Ошибка при запросе к " ++ url ++ ": " ++ toString r.status ++ " " ++ bodyText r

/-- The two checks of `testEndpoint` (lines 96-99). -/
def endpointChecks : List (String × (Response → Except Fault Bool)) :=
  [("status is 200", fun r => .ok (decide (r.status = 200))),
   ("response is valid", fun r => .ok (decide (r.status < 400)))]

/-- The function `testEndpoint` (lines 55-109). -/
def testEndpoint (rt : Runtime) (w : World) (token : JsVal) (endpoint : String)
    (method : String := "GET") (data : JsVal := .null) : Script Response := do
  modifyState (fun s => { s with endpointRequests := s.endpointRequests + 1 })
  let url := baseUrl ++ endpoint
  let (response, responseTime) ← httpSend w (buildRequest rt token endpoint method data)
  modifyState (fun s => { s with responseTimes := s.responseTimes ++ [responseTime] })
  let success ← check response endpointChecks
  modifyState (fun s => { s with successRate := s.successRate ++ [success] })
  if !success then
    modifyState (fun s => { s with endpointErrors := s.endpointErrors + 1 })
    modifyState (fun s => { s with console := s.console ++ [errorLine url response] })
  pure response

/-- The value of an identifier: a fault when nothing binds it. -/
def resolve {α : Type} (name : String) (binding : Option α) : Script α :=
  match binding with
  | some v => Script.pure v
  | none => raise (.referenceError name)

/-- The group `Users Endpoint` (lines 120-132). -/
def usersGroup (rt : Runtime) (w : World) (token : JsVal) : Script Unit :=
  group "Users Endpoint" (do
    let usersResponse ← testEndpoint rt w token "/user/users" "GET"
    if usersResponse.status = 200 then
      let _ ← check usersResponse
        [("has users array", fun r => do
            let parsed ← r.jsonCall
            pure (isArray parsed)),
         ("users not empty", fun r => do
            let parsed ← r.jsonCall
            let len ← getProp parsed "length"
            pure (greaterThanZero rt len))]
    sleep (.fixed 1))

/-- The group `Chat Endpoint` (lines 135-151).  The declaration of `chatResponse`
(line 141) is commented out in the source, so nothing binds the identifier that
line 143 evaluates. -/
def chatGroup (rt : Runtime) : Script Unit :=
  group "Chat Endpoint" (do
    let _chatData : JsVal := .obj
      [("question", .str "Тестовый вопрос для проверки работы чата"), ("department_id", .num 1)]
    let chatResponseBinding : Option Response := none
    let chatResponse ← resolve "chatResponse" chatResponseBinding
    if chatResponse.status = 200 then
      let _ ← check chatResponse
        [("has answer", fun r => do
            let parsed ← r.jsonCall
            hasOwnProperty parsed "answer"),
         ("answer not empty", fun r => do
            let parsed ← r.jsonCall
            let answer ← getProp parsed "answer"
            let len ← getProp answer "length"
            pure (greaterThanZero rt len))]
    sleep (.fixed 3))

/-- The group `Content Endpoint` (lines 154-164). -/
def contentGroup (rt : Runtime) (w : World) (token : JsVal) : Script Unit :=
  group "Content Endpoint" (do
    let contentResponse ← testEndpoint rt w token "/content" "GET"
    if contentResponse.status = 200 then
      let _ ← check contentResponse
        [("content is valid", fun r => do
            let parsed ← r.jsonCall
            pure (notNull parsed))]
    sleep (.fixed 1))

/-- The group `Tags Endpoint` (lines 167-177). -/
def tagsGroup (rt : Runtime) (w : World) (token : JsVal) : Script Unit :=
  group "Tags Endpoint" (do
    let tagsResponse ← testEndpoint rt w token "/tags" "GET"
    if tagsResponse.status = 200 then
      let _ ← check tagsResponse
        [("has tags array", fun r => do
            let parsed ← r.jsonCall
            pure (isArray parsed))]
    sleep (.fixed 1))

/-- The default export (lines 112-182): one iteration of one simulated user. -/
def defaultFunction (rt : Runtime) (w : World) : Script Unit := do
  let token ← getAuthToken rt w
  group "API Endpoints" (do
    usersGroup rt w token
    chatGroup rt
    contentGroup rt w token
    tagsGroup rt w token)
  sleep .randomOneToThree

/-! ## Run configuration -/

/-- One entry of `options.stages`. -/
structure Stage where
  duration : String
  target : Nat
  deriving DecidableEq, Repr

/-- The shape of the object `options`: the stages and, per metric name, the list of
threshold expressions. -/
structure Options where
  stages : List Stage
  thresholds : List (String × List String)
  deriving DecidableEq, Repr

/-- The object `options` (lines 12-27). -/
def options : Options :=
  { stages :=
      [ { duration := "1m", target := 20 },
        { duration := "2m", target := 50 },
        { duration := "5m", target := 50 },
        { duration := "2m", target := 100 },
        { duration := "5m", target := 100 },
        { duration := "2m", target := 0 } ]
    thresholds :=
      [ ("http_req_failed", ["rate<0.05"]),
        ("http_req_duration", ["p(95)<3000"]),
        ("success_rate", ["rate>0.95"]),
        ("endpoint_errors", ["count<100"]) ] }

/-! ### How k6 reads the thresholds

The part of the k6 threshold grammar that `options` uses: an aggregate (`rate`,
`count`, `p(N)`), one of the operators `<` and `>`, and a decimal bound. -/

/-- The aggregate a threshold expression is about. -/
inductive Aggregate where
  | rate
  | count
  | percentile (p : Nat)
  deriving DecidableEq, Repr

/-- The operator of a threshold expression. -/
inductive Comparison where
  | lt
  | gt
  deriving DecidableEq, Repr

/-- A parsed threshold expression; the bound is the fraction `num / den`. -/
structure ThresholdExpr where
  aggregate : Aggregate
  comparison : Comparison
  num : Nat
  den : Nat
  deriving DecidableEq, Repr

/-- The value of a non-empty run of decimal digits. -/
def digitsValue (cs : List Char) : Option Nat :=
  if cs = [] ∨ ¬ cs.all Char.isDigit then none
  else some (cs.foldl (fun acc c => 10 * acc + (c.toNat - 48)) 0)

/-- A decimal literal such as `3000` or `0.05`, as a fraction. -/
def parseDecimal (cs : List Char) : Option (Nat × Nat) :=
  match cs.span Char.isDigit with
  | (whole, []) => (digitsValue whole).map (fun n => (n, 1))
  | (whole, '.' :: frac) =>
    if whole = [] then none
    else (digitsValue (whole ++ frac)).map (fun n => (n, 10 ^ frac.length))
  | _ => none

/-- The aggregates `rate`, `count` and `p(N)`. -/
def parseAggregate (cs : List Char) : Option Aggregate :=
  if cs = "rate".data then some .rate
  else if cs = "count".data then some .count
  else
    match cs with
    | 'p' :: '(' :: rest =>
      match rest.span Char.isDigit with
      | (ds, [')']) => (digitsValue ds).map Aggregate.percentile
      | _ => none
    | _ => none

/-- A threshold expression: aggregate, operator, bound. -/
def parseThreshold (expr : String) : Option ThresholdExpr :=
  match expr.data.span (fun c => c != '<' && c != '>') with
  | (lhs, '<' :: rhs) =>
    match parseAggregate lhs, parseDecimal rhs with
    | some a, some (n, d) => some { aggregate := a, comparison := .lt, num := n, den := d }
    | _, _ => none
  | (lhs, '>' :: rhs) =>
    match parseAggregate lhs, parseDecimal rhs with
    | some a, some (n, d) => some { aggregate := a, comparison := .gt, num := n, den := d }
    | _, _ => none
  | _ => none

/-- The aggregate metrics of a finished run that the thresholds of `options` read.
The run has issued at least one request and recorded at least one success
value. -/
structure RunSummary where
  /-- Number of HTTP requests issued -/
  httpReqs : Nat
  /-- Number of HTTP requests that k6 counts as failed -/
  httpReqFailed : Nat
  /-- The 95th percentile of the request durations, in whole milliseconds, rounded down -/
  httpReqDurationP95 : Nat
  /-- Number of values added to `success_rate` -/
  successTotal : Nat
  /-- Number of those values that are `true` -/
  successTrue : Nat
  /-- Value of the counter `endpoint_errors` -/
  endpointErrors : Nat

/-- The aggregate of a metric as a fraction `(numerator, denominator)`. -/
def aggregateValue (sum : RunSummary) (metric : String) (agg : Aggregate) : Option (Nat × Nat) :=
  if metric = "http_req_failed" ∧ agg = .rate then some (sum.httpReqFailed, sum.httpReqs)
  else if metric = "http_req_duration" ∧ agg = .percentile 95 then
    some (sum.httpReqDurationP95, 1)
  else if metric = "success_rate" ∧ agg = .rate then some (sum.successTrue, sum.successTotal)
  else if metric = "endpoint_errors" ∧ agg = .count then some (sum.endpointErrors, 1)
  else none

/-- The comparison of the fraction `a / b` with the bound `c / d`. -/
def compareFraction (cmp : Comparison) (a b c d : Nat) : Bool :=
  match cmp with
  | .lt => decide (a * d < c * b)
  | .gt => decide (a * d > c * b)

/-- Whether one threshold expression of a metric holds for the run. -/
def thresholdHolds (sum : RunSummary) (metric expr : String) : Bool :=
  match parseThreshold expr with
  | none => false
  | some t =>
    match aggregateValue sum metric t.aggregate with
    | none => false
    | some (a, b) => compareFraction t.comparison a b t.num t.den

/-- The run is reported passed when every declared threshold holds. -/
def runPassed (opts : Options) (sum : RunSummary) : Bool :=
  opts.thresholds.all (fun entry => entry.2.all (thresholdHolds sum entry.1))

/-- The direction in which a stage moves the number of simulated users. -/
inductive Phase where
  | rampUp
  | plateau
  | rampDown
  deriving DecidableEq, Repr

/-- The direction of each stage, starting from `start` users. -/
def stageTrends (start : Nat) : List Stage → List Phase
  | [] => []
  | st :: rest =>
    (if start < st.target then Phase.rampUp
      else if start = st.target then Phase.plateau else Phase.rampDown)
      :: stageTrends st.target rest

/-- Consecutive stages of the same direction form one phase. -/
def mergePhases : List Phase → List Phase
  | [] => []
  | [p] => [p]
  | p :: q :: rest => if p = q then mergePhases (q :: rest) else p :: mergePhases (q :: rest)

/-- A sequence of `testEndpoint` calls made one after the other. -/
structure ProbeCall where
  token : JsVal
  endpoint : String
  method : String
  data : JsVal

/-- Run the calls in order, collecting the responses returned. -/
def runProbes (rt : Runtime) (w : World) : List ProbeCall → Script (List Response)
  | [] => Script.pure []
  | c :: cs =>
    Script.bind (testEndpoint rt w c.token c.endpoint c.method c.data) (fun r =>
      Script.bind (runProbes rt w cs) (fun rs => Script.pure (r :: rs)))

/-! ## Concrete runtimes and APIs used to evaluate the script -/

/-- Upper-casing of the letters `a` to `z`. -/
def asciiUpper (s : String) : String := String.mk (s.data.map Char.toUpper)

/-- A runtime for evaluating the script on ASCII method names and string tokens;
the serialised payload is kept opaque. -/
def sampleRuntime : Runtime :=
  { toUpperCase := asciiUpper
    stringify := fun _ => "<json>"
    display := fun _ => "[object Object]"
    gtZero := fun _ => false }

/-- An API that answers every request with the given status and an empty JSON array. -/
def constApi (status : Nat) : World :=
  { respond := fun _ _ => { status := status, body := some "[]", json := some (.arr []) }
    elapsed := fun _ _ => 12 }

/-- An API whose login answers 200 with the body `{"auth_key": key}` and which
answers every other request with 200 and an empty JSON array. -/
def loginApi (key : String) : World :=
  { respond := fun _ req =>
      if req.url = baseUrl ++ "/user/login" then
        { status := 200, body := some ("\x7b\"auth_key\":\"" ++ key ++ "\"\x7d"),
          json := some (.obj [("auth_key", .str key)]) }
      else
        { status := 200, body := some "[]", json := some (.arr []) }
    elapsed := fun _ _ => 12 }

/-- The API of the end-to-end scenario: login answers 200 with `{"auth_key": "abc123"}`,
`/user/users` answers 200 with a non-empty array, `/content` answers 200 with a
non-null body, `/tags` answers 200 with an array; anything else is 404. -/
def goodApi : World :=
  { respond := fun _ req =>
      if req.url = baseUrl ++ "/user/login" then
        { status := 200, body := some "\x7b\"auth_key\":\"abc123\"\x7d",
          json := some (.obj [("auth_key", .str "abc123")]) }
      else if req.url = baseUrl ++ "/user/users" then
        { status := 200, body := some "[\x7b\"id\":1\x7d]",
          json := some (.arr [.obj [("id", .num 1)]]) }
      else if req.url = baseUrl ++ "/content" then
        { status := 200, body := some "[]", json := some (.arr []) }
      else if req.url = baseUrl ++ "/tags" then
        { status := 200, body := some "[]", json := some (.arr []) }
      else
        { status := 404, body := some "", json := none }
    elapsed := fun _ _ => 12 }

/-- An API that answers every request with status 200 and an HTML page, which is
not JSON. -/
def htmlApi : World :=
  { respond := fun _ _ => { status := 200, body := some "<html></html>", json := none }
    elapsed := fun _ _ => 12 }

/-- The state `testEndpoint` leaves behind, written out field by field. -/
def afterProbe (w : World) (url : String) (req : Request) (s : State) : State :=
  let r := w.respond s.sent req
  let success := decide (r.status = 200) && decide (r.status < 400)
  { endpointErrors := if success then s.endpointErrors else s.endpointErrors + 1
    endpointRequests := s.endpointRequests + 1
    successRate := s.successRate ++ [success]
    responseTimes := s.responseTimes ++ [w.elapsed s.sent req]
    checks := s.checks ++
      [("status is 200", decide (r.status = 200)), ("response is valid", decide (r.status < 400))]
    console := if success then s.console else s.console ++ [errorLine url r]
    sent := s.sent ++ [req]
    groups := s.groups
    pauses := s.pauses }

/-! ## `testEndpoint` -/

/-- Sequencing after a step known to return. -/
theorem Script.bind_ok {α β : Type} (m : Script α) (f : α → Script β) (s : State) (a : α)
    (s1 : State) (h : m s = (.ok a, s1)) : Script.bind m f s = f a s1 := by
  simp [Script.bind, h]

/-- Sequencing after a step known to throw. -/
theorem Script.bind_error {α β : Type} (m : Script α) (f : α → Script β) (s : State) (e : Fault)
    (s1 : State) (h : m s = (.error e, s1)) : Script.bind m f s = (.error e, s1) := by
  simp [Script.bind, h]

/-- Every call of `testEndpoint` returns the response it received and leaves the
state `afterProbe` behind: it never throws. -/
theorem testEndpoint_run (rt : Runtime) (w : World) (token : JsVal) (endpoint method : String)
    (data : JsVal) (s : State) :
    testEndpoint rt w token endpoint method data s =
      (.ok (w.respond s.sent (buildRequest rt token endpoint method data)),
        afterProbe w (baseUrl ++ endpoint) (buildRequest rt token endpoint method data) s) := by
  simp only [testEndpoint, bind, Script.bind, modifyState, httpSend, endpointChecks, check,
    Script.pure, pure, afterProbe]
  by_cases h : (w.respond s.sent (buildRequest rt token endpoint method data)).status = 200
  · simp [h, Script.pure, modifyState, Script.bind]
  · by_cases h2 : (w.respond s.sent (buildRequest rt token endpoint method data)).status < 400
    · simp [h, h2, Script.pure, modifyState, Script.bind]
    · simp [h, h2, Script.pure, modifyState, Script.bind]

/-- Both checks hold exactly when the status is 200. -/
theorem both_checks_iff (n : Nat) : (decide (n = 200) && decide (n < 400)) = decide (n = 200) := by
  by_cases h : n = 200
  · simp [h]
  · simp [h]

/-- C1 (as stated, refuted): a response with status 201, which is below 400, is
recorded as success = false and increments the error counter. -/
theorem testEndpoint_status_201_not_success :
    (201 < 400) ∧
    (testEndpoint sampleRuntime (constApi 201) .null "/content" "GET" .null State.init).2.successRate
      = [false] ∧
    (testEndpoint sampleRuntime (constApi 201) .null "/content" "GET" .null State.init).2.endpointErrors
      = 1 := by
  refine ⟨by decide, ?_, ?_⟩ <;> rfl

/-- C1 (amended): for every call of `testEndpoint` and every response it receives, the
success value recorded is true exactly when the status is 200; a status-200
response leaves the error counter unchanged and every other response (201, 204,
304, status 400 and above, status 0 of a transport failure) increments it by
exactly 1. -/
theorem testEndpoint_success_iff_status_200 (rt : Runtime) (w : World) (token : JsVal)
    (endpoint method : String) (data : JsVal) (s : State) :
    ∃ r : Response,
      testEndpoint rt w token endpoint method data s =
        (.ok r, (testEndpoint rt w token endpoint method data s).2) ∧
      r = w.respond s.sent (buildRequest rt token endpoint method data) ∧
      (testEndpoint rt w token endpoint method data s).2.successRate
        = s.successRate ++ [decide (r.status = 200)] ∧
      (testEndpoint rt w token endpoint method data s).2.endpointErrors
        = if r.status = 200 then s.endpointErrors else s.endpointErrors + 1 := by
  refine ⟨w.respond s.sent (buildRequest rt token endpoint method data), ?_, rfl, ?_, ?_⟩
  · rw [testEndpoint_run]
  · rw [testEndpoint_run]
    simp [afterProbe, both_checks_iff]
  · rw [testEndpoint_run]
    simp [afterProbe, both_checks_iff]

/-- The text of `response.body` inside a template string is the body, or `null`
when there is none. -/
theorem bodyText_eq (r : Response) : bodyText r = r.body.getD "null" := by
  unfold bodyText
  cases r.body <;> rfl

/-- C10: for every call of `testEndpoint` with recorded success value `success`: when
`success` is false the error counter grows by exactly 1 and exactly one line is
logged, made of the target URL (the base URL followed by the endpoint), the
response status and the response body (`null` when the response has none);
when it is true the counter and the console are unchanged; either way the
response returned is the one received for the request sent to the target URL. -/
theorem testEndpoint_error_iff_not_success (rt : Runtime) (w : World) (token : JsVal)
    (endpoint method : String) (data : JsVal) (s : State) :
    ∃ (req : Request) (r : Response) (success : Bool),
      (testEndpoint rt w token endpoint method data s).1 = .ok r ∧
      (testEndpoint rt w token endpoint method data s).2.sent = s.sent ++ [req] ∧
      req.url = "http://192.168.81.10:8081/api" ++ endpoint ∧
      r = w.respond s.sent req ∧
      (testEndpoint rt w token endpoint method data s).2.successRate
        = s.successRate ++ [success] ∧
      (testEndpoint rt w token endpoint method data s).2.endpointErrors
        = (if success then s.endpointErrors else s.endpointErrors + 1) ∧
      (testEndpoint rt w token endpoint method data s).2.console
        = (if success then s.console else
            s.console ++ ["Ошибка при запросе к " ++ ("http://192.168.81.10:8081/api" ++ endpoint)
              ++ ": " ++ toString r.status ++ " " ++ r.body.getD "null"]) := by
  refine ⟨buildRequest rt token endpoint method data,
    w.respond s.sent (buildRequest rt token endpoint method data),
    decide ((w.respond s.sent (buildRequest rt token endpoint method data)).status = 200)
      && decide ((w.respond s.sent (buildRequest rt token endpoint method data)).status < 400),
    ?_, ?_, ?_, rfl, ?_, ?_, ?_⟩
  · rw [testEndpoint_run]
  · rw [testEndpoint_run]; rfl
  · unfold buildRequest
    split <;> rfl
  · rw [testEndpoint_run]; rfl
  · rw [testEndpoint_run]; rfl
  · rw [testEndpoint_run, ← bodyText_eq]; rfl

/-- C2: after any sequence of N calls of `testEndpoint`, from any state and whatever
the responses, all N calls have returned, the request counter has grown by
exactly N, the response-time distribution has gained exactly N values and the
success distribution exactly N booleans. -/
theorem runProbes_counts (rt : Runtime) (w : World) (calls : List ProbeCall) (s : State) :
    ∃ rs : List Response,
      (runProbes rt w calls s).1 = .ok rs ∧
      rs.length = calls.length ∧
      (runProbes rt w calls s).2.endpointRequests = s.endpointRequests + calls.length ∧
      (runProbes rt w calls s).2.responseTimes.length = s.responseTimes.length + calls.length ∧
      (runProbes rt w calls s).2.successRate.length = s.successRate.length + calls.length := by
  induction calls generalizing s with
  | nil => exact ⟨[], rfl, rfl, rfl, rfl, rfl⟩
  | cons c cs ih =>
    obtain ⟨rs, h1, h2, h3, h4, h5⟩ :=
      ih (afterProbe w (baseUrl ++ c.endpoint) (buildRequest rt c.token c.endpoint c.method c.data) s)
    have hrun : runProbes rt w (c :: cs) s =
        (.ok (w.respond s.sent (buildRequest rt c.token c.endpoint c.method c.data) :: rs),
          (runProbes rt w cs (afterProbe w (baseUrl ++ c.endpoint)
            (buildRequest rt c.token c.endpoint c.method c.data) s)).2) := by
      simp only [runProbes]
      rw [Script.bind_ok _ _ _ _ _ (testEndpoint_run rt w c.token c.endpoint c.method c.data s)]
      rw [Script.bind_ok _ _ _ _ _ (Prod.ext h1 rfl)]
      rfl
    refine ⟨w.respond s.sent (buildRequest rt c.token c.endpoint c.method c.data) :: rs, ?_⟩
    rw [hrun]
    refine ⟨rfl, by simp [h2], ?_, ?_, ?_⟩
    · show (runProbes rt w cs _).2.endpointRequests = _
      rw [h3]
      simp only [afterProbe, List.length_cons]
      omega
    · show (runProbes rt w cs _).2.responseTimes.length = _
      rw [h4]
      simp only [afterProbe, List.length_cons, List.length_append, List.length_nil]
      omega
    · show (runProbes rt w cs _).2.successRate.length = _
      rw [h5]
      simp only [afterProbe, List.length_cons, List.length_append, List.length_nil]
      omega

/-- The URL of the request `testEndpoint` sends is the base URL followed by the endpoint. -/
theorem buildRequest_url (rt : Runtime) (token : JsVal) (endpoint method : String) (data : JsVal) :
    (buildRequest rt token endpoint method data).url = baseUrl ++ endpoint := by
  unfold buildRequest
  split <;> rfl

/-- The headers of the request `testEndpoint` sends do not depend on the method. -/
theorem buildRequest_headers (rt : Runtime) (token : JsVal) (endpoint method : String)
    (data : JsVal) :
    (buildRequest rt token endpoint method data).headers = buildHeaders rt token := by
  unfold buildRequest
  split <;> rfl

/-- C4 (as stated, refuted): a login answered with status 200 and `auth_key` equal to
the empty string returns that string as the credential, and a probe of
`/content` made with it carries no `Authorization` header. -/
theorem testEndpoint_empty_credential_unauthenticated :
    (getAuthToken sampleRuntime (loginApi "") State.init).1 = .ok (.str "") ∧
    (testEndpoint sampleRuntime (loginApi "") (.str "") "/content" "GET" .null
        State.init).2.sent.map Request.headers
      = [[("Content-Type", "application/json")]] := by
  constructor <;> rfl

/-- C4 (amended): the request of every `testEndpoint` call starts its headers with
`Content-Type: application/json`, followed by one `Authorization` header exactly
when the credential is truthy; for a string credential that means non-empty,
and the value is then `Bearer ` followed by the credential; `null`, `undefined`
and the empty string give no `Authorization` header. -/
theorem testEndpoint_headers (rt : Runtime) (w : World) (token : JsVal)
    (endpoint method : String) (data : JsVal) (s : State) :
    ∃ req : Request,
      (testEndpoint rt w token endpoint method data s).2.sent = s.sent ++ [req] ∧
      req.headers = ("Content-Type", "application/json") ::
        (if truthy token then [("Authorization", "Bearer " ++ templateStr rt token)] else []) ∧
      (∀ t : String, token = .str t → t ≠ "" →
        req.headers = [("Content-Type", "application/json"), ("Authorization", "Bearer " ++ t)]) ∧
      (token = .null ∨ token = .undefined ∨ token = .str "" →
        req.headers = [("Content-Type", "application/json")]) := by
  refine ⟨buildRequest rt token endpoint method data, ?_, ?_, ?_, ?_⟩
  · rw [testEndpoint_run]; rfl
  · rw [buildRequest_headers]
    unfold buildHeaders
    split <;> rfl
  · intro t ht hne
    rw [buildRequest_headers, ht]
    simp [buildHeaders, truthy, templateStr, hne]
  · intro h
    rw [buildRequest_headers]
    rcases h with h | h | h <;> subst h <;> rfl

/-- C4 (amended), instance: the credential `abc123` gives `Authorization: Bearer abc123`. -/
theorem testEndpoint_headers_abc123 :
    ∃ req : Request,
      (testEndpoint sampleRuntime (constApi 200) (.str "abc123") "/content" "GET" .null
          State.init).2.sent = State.init.sent ++ [req] ∧
      req.headers
        = [("Content-Type", "application/json"), ("Authorization", "Bearer " ++ "abc123")] := by
  obtain ⟨req, h1, _, h3, _⟩ :=
    testEndpoint_headers sampleRuntime (constApi 200) (.str "abc123") "/content" "GET" .null
      State.init
  exact ⟨req, h1, h3 "abc123" rfl (by decide)⟩

/-- C5 (as stated, refuted): the method string `post` is none of `GET`, `POST`, `PUT`,
`DELETE`, yet the request is dispatched with the verb POST, not as a GET. -/
theorem testEndpoint_lowercase_post_dispatches_post :
    "post" ∉ ["GET", "POST", "PUT", "DELETE"] ∧
    (testEndpoint sampleRuntime (constApi 200) .null "/content" "post" .null
        State.init).2.sent.map Request.verb = [Verb.POST] := by
  constructor
  · decide
  · rfl

/-- C5 (amended): `testEndpoint` upper-cases the method before choosing the verb.  A
method whose upper-case form is `GET`, `POST`, `PUT` or `DELETE` is dispatched
with that verb; every other method is dispatched as a GET without body.  In all
cases the URL is the base URL followed by the endpoint, the headers are the
same, and the call returns normally. -/
theorem testEndpoint_dispatch (rt : Runtime) (w : World) (token : JsVal)
    (endpoint method : String) (data : JsVal) (s : State) :
    ∃ (req : Request) (r : Response),
      (testEndpoint rt w token endpoint method data s).1 = .ok r ∧
      (testEndpoint rt w token endpoint method data s).2.sent = s.sent ++ [req] ∧
      req.url = baseUrl ++ endpoint ∧
      req.headers = buildHeaders rt token ∧
      (rt.toUpperCase method = "GET" → req.verb = .GET ∧ req.body = none) ∧
      (rt.toUpperCase method = "POST" → req.verb = .POST) ∧
      (rt.toUpperCase method = "PUT" → req.verb = .PUT) ∧
      (rt.toUpperCase method = "DELETE" → req.verb = .DELETE) ∧
      (rt.toUpperCase method ∉ ["GET", "POST", "PUT", "DELETE"] →
        req.verb = .GET ∧ req.body = none) := by
  refine ⟨buildRequest rt token endpoint method data,
    w.respond s.sent (buildRequest rt token endpoint method data), ?_, ?_,
    buildRequest_url rt token endpoint method data,
    buildRequest_headers rt token endpoint method data, ?_, ?_, ?_, ?_, ?_⟩
  · rw [testEndpoint_run]
  · rw [testEndpoint_run]; rfl
  · intro h
    simp [buildRequest, h]
  · intro h
    simp [buildRequest, h]
  · intro h
    simp [buildRequest, h]
  · intro h
    simp [buildRequest, h]
  · intro h
    simp only [List.mem_cons, List.mem_singleton, List.not_mem_nil, or_false, not_or] at h
    obtain ⟨h1, h2, h3, h4⟩ := h
    unfold buildRequest
    split <;> simp_all

/-- C5 (amended), instance: the method `PATCH` is dispatched as a GET without body. -/
theorem testEndpoint_dispatch_patch :
    ∃ req : Request,
      (testEndpoint sampleRuntime (constApi 200) .null "/content" "PATCH" .null
          State.init).2.sent = State.init.sent ++ [req] ∧
      req.verb = .GET ∧ req.body = none := by
  obtain ⟨req, _, _, h2, _, _, _, _, _, _, h9⟩ :=
    testEndpoint_dispatch sampleRuntime (constApi 200) .null "/content" "PATCH" .null State.init
  exact ⟨req, h2, h9 (by decide)⟩

/-! ## `getAuthToken` -/

/-- The function `getAuthToken` sends the login request and then depends on the response only. -/
theorem getAuthToken_run (rt : Runtime) (w : World) (s : State) :
    getAuthToken rt w s =
      ((if (w.respond s.sent (loginRequest rt)).status = 200 then
          (w.respond s.sent (loginRequest rt)).jsonCall >>= fun parsed => getProp parsed "auth_key"
        else .ok .null),
        { s with sent := s.sent ++ [loginRequest rt] }) := by
  simp only [getAuthToken, bind, Script.bind, httpSend, pure]
  by_cases h : (w.respond s.sent (loginRequest rt)).status = 200
  · simp only [h, if_true, liftExcept]
    cases hj : (w.respond s.sent (loginRequest rt)).jsonCall with
    | error e => rfl
    | ok v => rfl
  · simp only [h, if_false, Script.pure]

/-- C3 (as stated, refuted): a login answered with status 200 and a body that is not
JSON makes `getAuthToken` throw instead of returning an absent credential. -/
theorem getAuthToken_malformed_body_throws :
    (htmlApi.respond State.init.sent (loginRequest sampleRuntime)).status = 200 ∧
    (getAuthToken sampleRuntime htmlApi State.init).1 = .error .jsonError := by
  constructor <;> rfl

/-- C3 (amended): `getAuthToken` sends exactly the login request.  Any status other
than 200 gives `null` whatever the body, without throwing.  With status 200: a
body that parses to an object with field `auth_key = t` gives `t`; a body that
parses to a value without that field (an object lacking it, an array, a string,
a number, a boolean) gives `undefined`, an absent credential, without throwing;
a body that cannot be parsed, or that parses to `null`, makes the call throw. -/
theorem getAuthToken_result (rt : Runtime) (w : World) (s : State) :
    (getAuthToken rt w s).2 = { s with sent := s.sent ++ [loginRequest rt] } ∧
    ((w.respond s.sent (loginRequest rt)).status ≠ 200 →
      (getAuthToken rt w s).1 = .ok .null) ∧
    ((w.respond s.sent (loginRequest rt)).status = 200 →
      (∀ kvs t, (w.respond s.sent (loginRequest rt)).json = some (.obj kvs) →
        lookupKey "auth_key" kvs = some t → (getAuthToken rt w s).1 = .ok t) ∧
      (∀ kvs, (w.respond s.sent (loginRequest rt)).json = some (.obj kvs) →
        lookupKey "auth_key" kvs = none → (getAuthToken rt w s).1 = .ok .undefined) ∧
      ((w.respond s.sent (loginRequest rt)).json = none →
        (getAuthToken rt w s).1 = .error .jsonError) ∧
      ((w.respond s.sent (loginRequest rt)).json = some .null →
        (getAuthToken rt w s).1 = .error .typeError) ∧
      (∀ xs, (w.respond s.sent (loginRequest rt)).json = some (.arr xs) →
        (getAuthToken rt w s).1 = .ok .undefined) ∧
      (∀ t, (w.respond s.sent (loginRequest rt)).json = some (.str t) →
        (getAuthToken rt w s).1 = .ok .undefined) ∧
      (∀ n, (w.respond s.sent (loginRequest rt)).json = some (.num n) →
        (getAuthToken rt w s).1 = .ok .undefined) ∧
      (∀ b, (w.respond s.sent (loginRequest rt)).json = some (.bool b) →
        (getAuthToken rt w s).1 = .ok .undefined) ∧
      (∀ t rest, (w.respond s.sent (loginRequest rt)).json
          = some (.obj (("auth_key", t) :: rest)) →
        (getAuthToken rt w s).1 = .ok t) ∧
      ((w.respond s.sent (loginRequest rt)).json = some (.obj []) →
        (getAuthToken rt w s).1 = .ok .undefined)) := by
  rw [getAuthToken_run]
  refine ⟨rfl, ?_, ?_⟩
  · intro h
    simp [h]
  · intro h
    simp only [h, if_true]
    refine ⟨?_, ?_, ?_, ?_, ?_, ?_, ?_, ?_, ?_, ?_⟩
    · intro kvs t hj hk
      simp [Response.jsonCall, hj, getProp, hk, bind, Except.bind]
    · intro kvs hj hk
      simp [Response.jsonCall, hj, getProp, hk, bind, Except.bind]
    · intro hj
      simp [Response.jsonCall, hj, bind, Except.bind]
    · intro hj
      simp [Response.jsonCall, hj, getProp, bind, Except.bind]
    · intro xs hj
      simp [Response.jsonCall, hj, getProp, bind, Except.bind]
    · intro t hj
      simp [Response.jsonCall, hj, getProp, bind, Except.bind]
    · intro n hj
      simp [Response.jsonCall, hj, getProp, bind, Except.bind]
    · intro b hj
      simp [Response.jsonCall, hj, getProp, bind, Except.bind]
    · intro t rest hj
      simp [Response.jsonCall, hj, getProp, lookupKey, bind, Except.bind]
    · intro hj
      simp [Response.jsonCall, hj, getProp, lookupKey, bind, Except.bind]

/-- C3 (amended), instance: the login response `{auth_key: "abc123"}` with status 200
gives the credential `abc123`. -/
theorem getAuthToken_abc123 :
    (getAuthToken sampleRuntime (loginApi "abc123") State.init).1 = .ok (.str "abc123") :=
  ((getAuthToken_result sampleRuntime (loginApi "abc123") State.init).2.2 rfl).1
    [("auth_key", .str "abc123")] (.str "abc123") rfl rfl

/-! ## The default function -/

/-- The group `Chat Endpoint` throws a `ReferenceError` from every state, before any
check or pause. -/
theorem chatGroup_throws (rt : Runtime) (s : State) :
    chatGroup rt s =
      (.error (.referenceError "chatResponse"),
        { s with groups := s.groups ++ ["Chat Endpoint"] }) := rfl

/-- A sequence whose second step always throws never returns. -/
theorem Script.bind_never_returns {α β : Type} (m : Script α) (f : α → Script β)
    (hf : ∀ a s, ∃ e, (f a s).1 = .error e) (s : State) :
    ∃ e, (Script.bind m f s).1 = .error e := by
  unfold Script.bind
  rcases hm : m s with ⟨out, s1⟩
  cases out with
  | error e => exact ⟨e, rfl⟩
  | ok a => exact hf a s1

/-- A sequence whose first step throws, throws. -/
theorem Script.bind_throws {α β : Type} (m : Script α) (f : α → Script β) (s : State)
    (hm : ∃ e, (m s).1 = .error e) : ∃ e, (Script.bind m f s).1 = .error e := by
  obtain ⟨e, he⟩ := hm
  unfold Script.bind
  rcases hms : m s with ⟨out, s1⟩
  rw [hms] at he
  cases out with
  | error e1 => exact ⟨e1, rfl⟩
  | ok a => cases he

/-- The login of the end-to-end scenario. -/
theorem goodApi_login (sent : List Request) :
    goodApi.respond sent (loginRequest sampleRuntime) =
      { status := 200, body := some "\x7b\"auth_key\":\"abc123\"\x7d",
        json := some (.obj [("auth_key", .str "abc123")]) } := by
  simp [goodApi, loginRequest]

/-- The users list of the end-to-end scenario. -/
theorem goodApi_users (sent : List Request) :
    goodApi.respond sent (buildRequest sampleRuntime (.str "abc123") "/user/users" "GET" .null) =
      { status := 200, body := some "[\x7b\"id\":1\x7d]",
        json := some (.arr [.obj [("id", .num 1)]]) } := by
  simp [goodApi, buildRequest_url, baseUrl]

/-- The login of the end-to-end scenario gives the credential `abc123`. -/
theorem getAuthToken_goodApi :
    getAuthToken sampleRuntime goodApi State.init =
      (.ok (.str "abc123"), { State.init with sent := [loginRequest sampleRuntime] }) := by
  rw [getAuthToken_run, goodApi_login]
  rfl

/-- C6 (evaluation): against the API of the end-to-end scenario the iteration stops
with a `ReferenceError` in the group `Chat Endpoint`: only the login and the
probe of `/user/users` are issued, `/content` and `/tags` are never probed, and
the final pause is not taken. -/
theorem defaultFunction_goodApi :
    (defaultFunction sampleRuntime goodApi State.init).1
      = .error (.referenceError "chatResponse") ∧
    (defaultFunction sampleRuntime goodApi State.init).2.sent.map (fun r => (r.verb, r.url))
      = [(Verb.POST, "http://192.168.81.10:8081/api/user/login"),
         (Verb.GET, "http://192.168.81.10:8081/api/user/users")] ∧
    (defaultFunction sampleRuntime goodApi State.init).2.endpointRequests = 1 ∧
    (defaultFunction sampleRuntime goodApi State.init).2.endpointErrors = 0 ∧
    (defaultFunction sampleRuntime goodApi State.init).2.checks
      = [("status is 200", true), ("response is valid", true),
         ("has users array", true), ("users not empty", true)] ∧
    (defaultFunction sampleRuntime goodApi State.init).2.groups
      = ["API Endpoints", "Users Endpoint", "Chat Endpoint"] ∧
    (defaultFunction sampleRuntime goodApi State.init).2.pauses = [Pause.fixed 1] := by
  simp only [defaultFunction, bind, Script.bind, getAuthToken_goodApi, group, usersGroup,
    testEndpoint_run, goodApi_users, chatGroup_throws]
  refine ⟨?_, ?_, ?_, ?_, ?_, ?_, ?_⟩ <;> rfl

/-- C7 (evaluation): whatever the API answers, the group `Chat Endpoint` throws a
`ReferenceError` from every state, and one iteration of the default function
never runs to completion: it always ends in a fault. -/
theorem defaultFunction_never_completes (rt : Runtime) (w : World) (s : State) :
    chatGroup rt s =
      (.error (.referenceError "chatResponse"),
        { s with groups := s.groups ++ ["Chat Endpoint"] }) ∧
    ∃ e, (defaultFunction rt w s).1 = .error e := by
  refine ⟨rfl, ?_⟩
  apply Script.bind_never_returns
  intro token s1
  apply Script.bind_throws
  show ∃ e, (Script.bind (usersGroup rt w token) _ _).1 = .error e
  apply Script.bind_never_returns
  intro u s2
  apply Script.bind_throws
  exact ⟨.referenceError "chatResponse", by rw [chatGroup_throws]⟩

/-! ## `options` -/

/-- The four threshold expressions of `options`, as k6 reads them. -/
theorem parseThreshold_options :
    parseThreshold "rate<0.05" = some ⟨.rate, .lt, 5, 100⟩ ∧
    parseThreshold "p(95)<3000" = some ⟨.percentile 95, .lt, 3000, 1⟩ ∧
    parseThreshold "rate>0.95" = some ⟨.rate, .gt, 95, 100⟩ ∧
    parseThreshold "count<100" = some ⟨.count, .lt, 100, 1⟩ := by
  refine ⟨?_, ?_, ?_, ?_⟩ <;> decide

/-- The verdict on a run, threshold by threshold. -/
theorem runPassed_options (sum : RunSummary) :
    runPassed options sum =
      (decide (sum.httpReqFailed * 100 < 5 * sum.httpReqs) &&
        decide (sum.httpReqDurationP95 < 3000) &&
        decide (sum.successTrue * 100 > 95 * sum.successTotal) &&
        decide (sum.endpointErrors < 100)) := by
  obtain ⟨h1, h2, h3, h4⟩ := parseThreshold_options
  simp [runPassed, options, thresholdHolds, h1, h2, h3, h4, aggregateValue, compareFraction,
    Bool.and_assoc]

/-- C9: the stage sequence of `options` is, in order, (1m, 20), (2m, 50), (5m, 50),
(2m, 100), (5m, 100), (2m, 0), that is ramp up, plateau, ramp up, plateau, ramp
down to 0; the thresholds are `rate<0.05` on failed requests, `p(95)<3000` on
request duration, `rate>0.95` on the success rate and `count<100` on the
endpoint errors, read by k6 as the bounds 5/100, 3000, 95/100 and 100. -/
theorem options_defaults :
    options.stages.map (fun st => (st.duration, st.target))
      = [("1m", 20), ("2m", 50), ("5m", 50), ("2m", 100), ("5m", 100), ("2m", 0)] ∧
    mergePhases (stageTrends 0 options.stages)
      = [.rampUp, .plateau, .rampUp, .plateau, .rampDown] ∧
    options.thresholds
      = [("http_req_failed", ["rate<0.05"]), ("http_req_duration", ["p(95)<3000"]),
         ("success_rate", ["rate>0.95"]), ("endpoint_errors", ["count<100"])] ∧
    options.thresholds.map (fun entry => (entry.1, entry.2.map parseThreshold))
      = [("http_req_failed", [some ⟨.rate, .lt, 5, 100⟩]),
         ("http_req_duration", [some ⟨.percentile 95, .lt, 3000, 1⟩]),
         ("success_rate", [some ⟨.rate, .gt, 95, 100⟩]),
         ("endpoint_errors", [some ⟨.count, .lt, 100, 1⟩])] := by
  refine ⟨?_, ?_, ?_, ?_⟩ <;> decide

/-- C8 (as stated, refuted): a run of 50 iterations, each sending the login and the
probe of `/user/users`, in which three probes are answered with status 500, has
3 errors out of 100 requests and a 95th percentile of 1200 ms, yet it is
reported failed: only 47 of its 50 success values are true. -/
theorem runPassed_three_errors_failed :
    runPassed options
      { httpReqs := 100, httpReqFailed := 3, httpReqDurationP95 := 1200,
        successTotal := 50, successTrue := 47, endpointErrors := 3 } = false := by
  rw [runPassed_options]
  decide

/-- C8 (amended): under the thresholds of `options` a finished run is reported passed
exactly when all four hold: failed-request rate below 5/100, 95th percentile of
the request durations below 3000 ms, success rate above 95/100, fewer than 100
endpoint errors.  So a run in which 3 of 100 requests failed is reported passed
exactly when the other three thresholds hold as well; a run in which 6 of 100
requests failed, or 6 of 100 success values are false, is reported failed
whatever its other metrics, and so is a run in which exactly 5 of 100 requests
failed: the error-rate bound is strict. -/
theorem runPassed_error_rate (sum : RunSummary) :
    (runPassed options sum = true ↔
      sum.httpReqFailed * 100 < 5 * sum.httpReqs ∧ sum.httpReqDurationP95 < 3000 ∧
        95 * sum.successTotal < sum.successTrue * 100 ∧ sum.endpointErrors < 100) ∧
    (sum.httpReqs = 100 → sum.httpReqFailed = 3 →
      (runPassed options sum = true ↔
        sum.httpReqDurationP95 < 3000 ∧ 95 * sum.successTotal < sum.successTrue * 100 ∧
          sum.endpointErrors < 100)) ∧
    (sum.httpReqs = 100 → sum.httpReqFailed = 6 → runPassed options sum = false) ∧
    (sum.httpReqs = 100 → sum.httpReqFailed = 5 → runPassed options sum = false) ∧
    (sum.successTotal = 100 → sum.successTrue = 94 → runPassed options sum = false) := by
  have key : runPassed options sum = true ↔
      sum.httpReqFailed * 100 < 5 * sum.httpReqs ∧ sum.httpReqDurationP95 < 3000 ∧
        95 * sum.successTotal < sum.successTrue * 100 ∧ sum.endpointErrors < 100 := by
    rw [runPassed_options]
    simp only [Bool.and_eq_true, decide_eq_true_eq, gt_iff_lt, and_assoc]
  refine ⟨key, ?_, ?_, ?_, ?_⟩
  · intro h1 h2
    rw [key, h1, h2]
    constructor
    · rintro ⟨_, h⟩
      exact h
    · intro h
      exact ⟨by decide, h⟩
  · intro h1 h2
    rw [Bool.eq_false_iff, Ne, key, h1, h2]
    rintro ⟨h, _⟩
    omega
  · intro h1 h2
    rw [Bool.eq_false_iff, Ne, key, h1, h2]
    rintro ⟨h, _⟩
    omega
  · intro h1 h2
    rw [Bool.eq_false_iff, Ne, key, h1, h2]
    rintro ⟨_, _, h, _⟩
    omega

/-- C8 (amended), instance: a run of 50 iterations in which three logins are refused
and every probe is answered with status 200 has 3 errors out of 100 requests, a
95th percentile of 1200 ms, 50 true success values out of 50 and no endpoint
error, and is reported passed. -/
theorem runPassed_three_errors_passed :
    runPassed options
      { httpReqs := 100, httpReqFailed := 3, httpReqDurationP95 := 1200,
        successTotal := 50, successTrue := 50, endpointErrors := 0 } = true :=
  ((runPassed_error_rate
      { httpReqs := 100, httpReqFailed := 3, httpReqDurationP95 := 1200,
        successTotal := 50, successTrue := 50, endpointErrors := 0 }).2.1 rfl rfl).mpr
    ⟨by decide, by decide, by decide⟩

end LoadTest
